import Mathlib

/-!
Verification development for the piston-audio-ui Bluetooth pairing agent and
device-state coordinator.

The definitions below are a shallow embedding of `src/bluetooth_agent.py` and
`src/ui.py`.  Mutable Python objects (`PairingRequest` instances shared between
the registry dict and suspended coroutines) are modelled by an explicit heap of
requests indexed by allocation order; the registry `_pending_requests` dict is
an association list from device path to heap index with Python-dict semantics
(replace value in place on key collision, preserving order).  An
`asyncio.Future` is modelled by two booleans: whether it was created and
whether its result was set.
-/

namespace Piston

/-- Status of a pairing request, from `PairingStatus` in `bluetooth_agent.py`. -/
inductive PairingStatus
  | pending
  | accepted
  | rejected
  | timeout
deriving DecidableEq, Repr

/-- A pairing request object, from the `PairingRequest` dataclass.  The
`asyncio.Future` field is modelled by `futureCreated` (the future object
exists, i.e. `_wait_for_response` has run its first line) and `futureDone`
(`set_result` has been called on it). -/
structure PairingRequest where
  device_path : String
  device_name : String
  device_address : String
  passkey : Option String
  status : PairingStatus
  futureCreated : Bool
  futureDone : Bool
deriving DecidableEq, Repr

/-- State of a `BluetoothAgent`: the heap of all `PairingRequest` objects ever
allocated (indexed by allocation order, capturing Python object identity), the
`_pending_requests` dict as an association list path ↦ heap index, and the
list of device paths for which the `on_pairing_request` sink callback fired. -/
structure AgentState where
  heap : List PairingRequest
  pending : List (String × Nat)
  events : List String
deriving DecidableEq, Repr

/-- The agent's initial state: empty heap, empty registry, no notifications. -/
def agentInit : AgentState := { heap := [], pending := [], events := [] }

/-- Python-dict assignment `d[k] = v` on an association list: replace the
value at the first occurrence of the key, else append. -/
def dictInsert {α : Type} (l : List (String × α)) (k : String) (v : α) : List (String × α) :=
  match l with
  | [] => [(k, v)]
  | (k0, v0) :: rest =>
    if k0 == k then (k0, v) :: rest
    else (k0, v0) :: dictInsert rest k v

/-- Python-dict lookup `d.get(k)` on an association list. -/
def dictLookup {α : Type} (l : List (String × α)) (k : String) : Option α :=
  match l with
  | [] => none
  | (k0, v0) :: rest => if k0 == k then some v0 else dictLookup rest k

/-- Python-dict deletion (`del d[k]`, or `d.pop(k, None)`) on an association
list; absence is a no-op. -/
def dictErase {α : Type} (l : List (String × α)) (k : String) : List (String × α) :=
  l.filter (fun p => p.1 != k)

/-- Update the request object at heap index `id` in place. -/
def updReq : List PairingRequest → Nat → (PairingRequest → PairingRequest) → List PairingRequest
  | [], _, _ => []
  | r :: rest, 0, f => f r :: rest
  | r :: rest, Nat.succ n, f => r :: updReq rest n f

/-- Allocate a fresh `PairingRequest` (status PENDING, no future yet), store it
in the registry under its device path, and notify the sink: the common prefix
of `DisplayPinCode`, `DisplayPasskey`, `RequestConfirmation`,
`RequestAuthorization` and the non-allow-listed branch of `AuthorizeService`. -/
def registerRequest (st : AgentState) (device name addr : String) (pk : Option String) :
    Nat × AgentState :=
  let id := st.heap.length
  let req : PairingRequest :=
    { device_path := device, device_name := name, device_address := addr,
      passkey := pk, status := PairingStatus.pending,
      futureCreated := false, futureDone := false }
  (id, { heap := st.heap ++ [req],
         pending := dictInsert st.pending device id,
         events := st.events ++ [device] })

/-- First line of `_wait_for_response`: create the future the coroutine will
await on the request object at heap index `id`. -/
def waitStart (st : AgentState) (id : Nat) : AgentState :=
  { st with heap := updReq st.heap id (fun r => { r with futureCreated := true, futureDone := false }) }

/-- Model of `RequestConfirmation` up to its suspension point: register the request
carrying the zero-padded passkey, notify the sink, create the future. -/
def requestConfirmationStart (st : AgentState) (device name addr passkey_str : String) :
    Nat × AgentState :=
  let (id, st1) := registerRequest st device name addr (some passkey_str)
  (id, waitStart st1 id)

/-- Model of `RequestAuthorization` up to its suspension point: like confirmation but
with no passkey. -/
def requestAuthorizationStart (st : AgentState) (device name addr : String) :
    Nat × AgentState :=
  let (id, st1) := registerRequest st device name addr none
  (id, waitStart st1 id)

/-- Python's `str.lower()` on the characters of a string (`uuid.lower()` in
`AuthorizeService`). -/
def strLower (s : String) : String := String.mk (s.data.map Char.toLower)

/-- The auto-approved service allow-list from `AuthorizeService`: A2DP source,
A2DP sink, AVRCP target, AVRCP controller. -/
def a2dp_uuids : List String :=
  [ "0000110a-0000-1000-8000-00805f9b34fb",
    "0000110b-0000-1000-8000-00805f9b34fb",
    "0000110e-0000-1000-8000-00805f9b34fb",
    "0000110c-0000-1000-8000-00805f9b34fb" ]

/-- Outcome of the branch decision in `AuthorizeService`: immediate success
with no request, or a registered request suspended at heap index `id`. -/
inductive AuthorizeOutcome
  | autoApproved
  | suspended (id : Nat)
deriving DecidableEq, Repr

/-- Model of `AuthorizeService` up to its suspension point: return immediately if
`uuid.lower()` is in the allow-list, else register a passkey-less request,
notify the sink, and create the future. -/
def authorizeServiceStart (st : AgentState) (device name addr uuid : String) :
    AuthorizeOutcome × AgentState :=
  if a2dp_uuids.contains (strLower uuid) then
    (AuthorizeOutcome.autoApproved, st)
  else
    let (id, st1) := registerRequest st device name addr none
    (AuthorizeOutcome.suspended id, waitStart st1 id)

/-- Mutation applied to a request object by a resolution: set the status and
set the future's result if the future exists (`request.future`) and is not yet
done (`not request.future.done()`). -/
def resolverFun (status : PairingStatus) (r : PairingRequest) : PairingRequest :=
  { r with status := status, futureDone := r.futureDone || r.futureCreated }

/-- Shared body of `accept_pairing`/`reject_pairing`: if the path is in the
registry, set the request's status, set the future's result if the future
exists and is not yet done, and return `true`; otherwise return `false`. -/
def resolveWith (status : PairingStatus) (st : AgentState) (device_path : String) :
    Bool × AgentState :=
  match dictLookup st.pending device_path with
  | none => (false, st)
  | some id =>
    (true, { st with heap := updReq st.heap id (resolverFun status) })

/-- Model of `BluetoothAgent.accept_pairing`. -/
def accept_pairing (st : AgentState) (device_path : String) : Bool × AgentState :=
  resolveWith PairingStatus.accepted st device_path

/-- Model of `BluetoothAgent.reject_pairing`. -/
def reject_pairing (st : AgentState) (device_path : String) : Bool × AgentState :=
  resolveWith PairingStatus.rejected st device_path

/-- Resolution applied to one request by `Cancel`: status becomes REJECTED and
the future's result is set if it exists and is not yet done. -/
def cancelResolve (heap : List PairingRequest) (id : Nat) : List PairingRequest :=
  updReq heap id (resolverFun PairingStatus.rejected)

/-- Model of `BluetoothAgent.Cancel`: resolve every request in the registry as REJECTED
and clear the registry. -/
def cancelAgent (st : AgentState) : AgentState :=
  { st with heap := st.pending.foldl (fun h p => cancelResolve h p.2) st.heap,
            pending := [] }

/-- The waiting coroutine of `_wait_for_response` resumes after its future's
result was set: it returns whether the request's status is ACCEPTED, and the
`finally` block removes the request's device path from the registry. -/
def waitResume (st : AgentState) (id : Nat) : Bool × AgentState :=
  match st.heap[id]? with
  | none => (false, st)
  | some r =>
    (r.status == PairingStatus.accepted,
     { st with pending := dictErase st.pending r.device_path })

/-- The `asyncio.TimeoutError` branch of `_wait_for_response`: the timeout
elapsed with the future unresolved, so the request's status is set to TIMEOUT,
`False` is returned, and the `finally` block removes the request's device path
from the registry. -/
def waitTimeout (st : AgentState) (id : Nat) : Bool × AgentState :=
  match st.heap[id]? with
  | none => (false, st)
  | some r =>
    (false,
     { st with heap := updReq st.heap id (fun q => { q with status := PairingStatus.timeout }),
               pending := dictErase st.pending r.device_path })

/-- A D-Bus error raised back to the stack, with error name and message. -/
structure DBusErr where
  name : String
  msg : String
deriving DecidableEq, Repr

/-- Tail of `RequestConfirmation`: raise `org.bluez.Error.Rejected` when the
wait reported non-acceptance, else return normally. -/
def requestConfirmationFinish (accepted : Bool) : Except DBusErr Unit :=
  if accepted then Except.ok ()
  else Except.error { name := "org.bluez.Error.Rejected", msg := "Pairing rejected by user" }

/-- Tail of `RequestAuthorization`. -/
def requestAuthorizationFinish (accepted : Bool) : Except DBusErr Unit :=
  if accepted then Except.ok ()
  else Except.error { name := "org.bluez.Error.Rejected", msg := "Authorization rejected by user" }

/-- Tail of the non-allow-listed branch of `AuthorizeService`. -/
def authorizeServiceFinish (accepted : Bool) : Except DBusErr Unit :=
  if accepted then Except.ok ()
  else Except.error { name := "org.bluez.Error.Rejected", msg := "Service authorization rejected" }

/-! ### Error-message classification, from `PistonAudioUI._parse_dbus_error` -/

/-- Whether the pattern matches at the head of the character list. -/
def charsMatchAt : List Char → List Char → Bool
  | [], _ => true
  | _ :: _, [] => false
  | p :: ps, c :: cs => p == c && charsMatchAt ps cs

/-- Whether the pattern occurs as a contiguous run anywhere in the list:
Python's substring test `pat in s`. -/
def charsContain (pat : List Char) : List Char → Bool
  | [] => pat.isEmpty
  | c :: cs => charsMatchAt pat (c :: cs) || charsContain pat cs

/-- Python's `pat in s` substring containment on strings. -/
def strContains (s pat : String) : Bool := charsContain pat.data s.data

/-- Python's `s.split(sep)` for a single-character separator, on character
lists: always returns at least one (possibly empty) segment. -/
def splitChars (sep : Char) : List Char → List (List Char)
  | [] => [[]]
  | c :: cs =>
    let r := splitChars sep cs
    if c == sep then [] :: r
    else
      match r with
      | [] => [[c]]
      | h :: t => (c :: h) :: t

/-- Drop leading whitespace from a character list. -/
def dropWhileWs : List Char → List Char
  | [] => []
  | c :: cs => if c.isWhitespace then dropWhileWs cs else c :: cs

/-- Python's `s.strip()`: drop leading and trailing whitespace. -/
def trimChars (l : List Char) : List Char :=
  (dropWhileWs (dropWhileWs l).reverse).reverse

/-- Model of `PistonAudioUI._parse_dbus_error`: map a raw D-Bus error message to
user-facing text, with a catch-all that extracts the last colon-delimited
segment (stripped) and otherwise passes the message through verbatim. -/
def parse_dbus_error (error : String) : String :=
  if strContains error "Host is down" then "Device is not in range or powered off"
  else if strContains error "Connection refused" then "Device refused the connection"
  else if strContains error "le-connection-abort" then "Connection was aborted"
  else if strContains error "InProgress" then "Operation already in progress"
  else if strContains error "NotReady" then "Bluetooth adapter is not ready"
  else if strContains error "AuthenticationFailed" then "Authentication failed - try removing and re-pairing"
  else if strContains error "AuthenticationCanceled" then "Authentication was cancelled"
  else if strContains error "AuthenticationRejected" then "Authentication was rejected by the device"
  else if strContains error "AuthenticationTimeout" then "Authentication timed out"
  else if strContains error "ConnectionAttemptFailed" then "Connection attempt failed"
  else if strContains error ":" then
    String.mk (trimChars ((splitChars ':' error.data).getLastD []))
  else error

/-! ### Device-state overlay, from `PistonAudioUI._connect_device` and friends -/

/-- Modelled from the spec: the overlay `DeviceState` enumeration
(`state ∈ {DISCONNECTED, CONNECTING, CONNECTED, DISCONNECTING, PAIRING,
ERROR}`).  `ui.py` imports `DeviceState` from `bluetooth_agent`, but that
module does not define it; following the spec and the sibling enumerations in
the repository (`PairingStatus`, `AudioBackend`), it is a plain symbolic
enumeration. -/
inductive DeviceState
  | disconnected
  | connecting
  | connected
  | disconnecting
  | pairing
  | error
deriving DecidableEq, Repr

/-- Modelled from the spec: Python `==` between a plain `Enum` member (which
`DeviceState` is, per the spec's symbolic state set and the repository's enum
convention) and a `str` literal, as written at the guard of
`_clear_error_state` (`self._device_states.get(device_path) == "error"`): a
plain-enum member never equals a string, so this is constantly `false`. -/
def deviceStateEqPyStr (_s : DeviceState) (_t : String) : Bool := false

/-- State of the UI overlay: the `_device_states` dict of `PistonAudioUI`,
plus the list of `ui.notify` messages shown. -/
structure UIState where
  deviceStates : List (String × DeviceState)
  notices : List String
deriving DecidableEq, Repr

/-- The UI's initial state: empty overlay map, no notifications. -/
def uiInit : UIState := { deviceStates := [], notices := [] }

/-- Outcome of the awaited stack call `bt_manager.connect_device(path)`:
either it returns, or it raises an exception carrying a message. -/
inductive StackResult
  | ok
  | failure (msg : String)
deriving DecidableEq, Repr

/-- First step of `_connect_device`: set the overlay state to CONNECTING
before issuing the stack call. -/
def connectStart (ui : UIState) (path : String) : UIState :=
  { ui with deviceStates := dictInsert ui.deviceStates path DeviceState.connecting }

/-- The try/except of `_connect_device` around the stack call: CONNECTED and a
success notice on return, ERROR and a classified failure notice on
exception. -/
def connectFinish (ui : UIState) (path : String) (res : StackResult) : UIState :=
  match res with
  | StackResult.ok =>
    { ui with deviceStates := dictInsert ui.deviceStates path DeviceState.connected,
              notices := ui.notices ++ ["Device connected"] }
  | StackResult.failure m =>
    { ui with deviceStates := dictInsert ui.deviceStates path DeviceState.error,
              notices := ui.notices ++ ["Connection failed: " ++ parse_dbus_error m] }

/-- Model of `PistonAudioUI._clear_error_state` after its 5-second sleep: pop the
overlay entry if the guard `_device_states.get(device_path) == "error"`
holds. -/
def clear_error_state (ui : UIState) (path : String) : UIState :=
  match dictLookup ui.deviceStates path with
  | none => ui
  | some s =>
    if deviceStateEqPyStr s "error" then
      { ui with deviceStates := dictErase ui.deviceStates path }
    else ui

/-- The whole `_connect_device` coroutine for a given stack outcome,
including the `finally` block: if the overlay state ended as
`DeviceState.error`, await `_clear_error_state` (whose sleep elapses with no
superseding operation). -/
def connect_device_ui (ui : UIState) (path : String) (res : StackResult) : UIState :=
  let ui2 := connectFinish (connectStart ui path) path res
  if dictLookup ui2.deviceStates path == some DeviceState.error then
    clear_error_state ui2 path
  else ui2

/-! ### Degraded operation of the manager without a D-Bus connection -/

/-- The `Device1` property map reported by the stack for one object, with
every property optional (the code supplies a default for each). -/
structure DeviceProps where
  address : Option String
  name : Option String
  paired : Option Bool
  trusted : Option Bool
  connected : Option Bool
  icon : Option String
deriving DecidableEq, Repr

/-- The `Adapter1` property map reported by the stack. -/
structure AdapterProps where
  name : Option String
  aliasName : Option String
  address : Option String
  powered : Option Bool
  discoverable : Option Bool
  pairable : Option Bool
deriving DecidableEq, Repr

/-- Responses the Bluetooth stack would give over the bus: the managed-object
tree (each path with its `Device1` properties when that interface is present)
and the adapter's properties. -/
structure StackOracle where
  managedObjects : List (String × Option DeviceProps)
  adapterProps : AdapterProps
deriving DecidableEq, Repr

/-- A known device, from the `BluetoothDevice` dataclass. -/
structure BluetoothDevice where
  path : String
  address : String
  name : String
  paired : Bool
  trusted : Bool
  connected : Bool
  icon : String
deriving DecidableEq, Repr

/-- Connection state of a `BluetoothManager`: whether `_bus` is set and the
discovered `_adapter_path`. -/
structure BluetoothManager where
  busConnected : Bool
  adapterPath : Option String
deriving DecidableEq, Repr

/-- A string or boolean value in the `get_adapter_info` result dict. -/
inductive AVal
  | s (v : String)
  | b (v : Bool)
deriving DecidableEq, Repr

/-- Model of `BluetoothManager.get_devices`: empty list without touching the stack when
`_bus` is unset; otherwise enumerate managed objects and build a
`BluetoothDevice` for each object exposing the device interface, with the
code's property defaults.  The second component lists the bus calls made. -/
def get_devices (m : BluetoothManager) (stack : StackOracle) :
    List BluetoothDevice × List String :=
  if !m.busConnected then ([], [])
  else
    (stack.managedObjects.filterMap (fun po =>
      po.2.map (fun props =>
        { path := po.1,
          address := props.address.getD "",
          name := props.name.getD "Unknown",
          paired := props.paired.getD false,
          trusted := props.trusted.getD false,
          connected := props.connected.getD false,
          icon := props.icon.getD "audio-card" })),
     ["Introspect /", "GetManagedObjects"])

/-- Model of `BluetoothManager.get_adapter_info`: empty dict without touching the stack
when `_bus` or `_adapter_path` is unset; otherwise a six-entry snapshot of the
adapter's properties with the code's defaults. -/
def get_adapter_info (m : BluetoothManager) (stack : StackOracle) :
    List (String × AVal) × List String :=
  match m.busConnected, m.adapterPath with
  | true, some ap =>
    ([("name", AVal.s (stack.adapterProps.name.getD "")),
      ("alias", AVal.s (stack.adapterProps.aliasName.getD "")),
      ("address", AVal.s (stack.adapterProps.address.getD "")),
      ("powered", AVal.b (stack.adapterProps.powered.getD false)),
      ("discoverable", AVal.b (stack.adapterProps.discoverable.getD false)),
      ("pairable", AVal.b (stack.adapterProps.pairable.getD false))],
     ["Introspect " ++ ap, "GetAll Adapter1"])
  | _, _ => ([], [])

/-- Model of `BluetoothManager.set_discoverable`: returns without any bus call when
`_bus` or `_adapter_path` is unset; otherwise sets `Discoverable` and, if the
timeout is non-negative, `DiscoverableTimeout`. -/
def set_discoverable (m : BluetoothManager) (discoverable : Bool) (timeout : Int) :
    List String :=
  match m.busConnected, m.adapterPath with
  | true, some ap =>
    ["Introspect " ++ ap, "Set Discoverable " ++ toString discoverable] ++
      (if timeout ≥ 0 then ["Set DiscoverableTimeout"] else [])
  | _, _ => []

/-- Model of `BluetoothManager.set_pairable`, analogous to `set_discoverable`. -/
def set_pairable (m : BluetoothManager) (pairable : Bool) (timeout : Int) :
    List String :=
  match m.busConnected, m.adapterPath with
  | true, some ap =>
    ["Introspect " ++ ap, "Set Pairable " ++ toString pairable] ++
      (if timeout ≥ 0 then ["Set PairableTimeout"] else [])
  | _, _ => []

/-- Model of `BluetoothManager.set_adapter_alias`. -/
def set_adapter_alias (m : BluetoothManager) (aliasName : String) : List String :=
  match m.busConnected, m.adapterPath with
  | true, some ap => ["Introspect " ++ ap, "Set Alias " ++ aliasName]
  | _, _ => []

/-- Model of `BluetoothManager.trust_device`: guarded only by `_bus`. -/
def trust_device (m : BluetoothManager) (device_path : String) : List String :=
  if !m.busConnected then []
  else ["Introspect " ++ device_path, "Set Trusted"]

/-- Model of `BluetoothManager.connect_device`: guarded only by `_bus`. -/
def connect_device (m : BluetoothManager) (device_path : String) : List String :=
  if !m.busConnected then []
  else ["Introspect " ++ device_path, "Connect"]

/-- Model of `BluetoothManager.disconnect_device`: guarded only by `_bus`. -/
def disconnect_device (m : BluetoothManager) (device_path : String) : List String :=
  if !m.busConnected then []
  else ["Introspect " ++ device_path, "Disconnect"]

/-- Model of `BluetoothManager.remove_device`: guarded by `_bus` and `_adapter_path`. -/
def remove_device (m : BluetoothManager) (device_path : String) : List String :=
  match m.busConnected, m.adapterPath with
  | true, some ap => ["Introspect " ++ ap, "RemoveDevice " ++ device_path]
  | _, _ => []

/-! ### Lemmas about the dictionary and heap operations -/

theorem dictLookup_dictInsert_self {α : Type} (l : List (String × α)) (k : String) (v : α) :
    dictLookup (dictInsert l k v) k = some v := by
  induction l with
  | nil => simp [dictInsert, dictLookup]
  | cons p rest ih =>
    obtain ⟨k0, v0⟩ := p
    by_cases h : k0 = k
    · simp [dictInsert, dictLookup, h]
    · simp [dictInsert, dictLookup, h, ih]

theorem dictLookup_dictErase_self {α : Type} (l : List (String × α)) (k : String) :
    dictLookup (dictErase l k) k = none := by
  induction l with
  | nil => simp [dictErase, dictLookup]
  | cons p rest ih =>
    obtain ⟨k0, v0⟩ := p
    by_cases h : k0 = k
    · simpa [dictErase, h] using ih
    · simpa [dictErase, dictLookup, h] using ih

theorem mem_keys_dictInsert {α : Type} (l : List (String × α)) (k x : String) (v : α)
    (h : x ∈ (dictInsert l k v).map Prod.fst) : x ∈ l.map Prod.fst ∨ x = k := by
  induction l with
  | nil => simpa [dictInsert] using h
  | cons p rest ih =>
    obtain ⟨k0, v0⟩ := p
    by_cases hk : k0 = k
    · have e : dictInsert ((k0, v0) :: rest) k v = (k0, v) :: rest := by
        simp [dictInsert, hk]
      rw [e, List.map_cons, List.mem_cons] at h
      rcases h with h | h
      · exact Or.inr (h.trans hk)
      · exact Or.inl (by rw [List.map_cons, List.mem_cons]; exact Or.inr h)
    · have e : dictInsert ((k0, v0) :: rest) k v = (k0, v0) :: dictInsert rest k v := by
        simp [dictInsert, hk]
      rw [e, List.map_cons, List.mem_cons] at h
      rcases h with h | h
      · exact Or.inl (by rw [List.map_cons, List.mem_cons]; exact Or.inl h)
      · rcases ih h with h1 | h1
        · exact Or.inl (by rw [List.map_cons, List.mem_cons]; exact Or.inr h1)
        · exact Or.inr h1

theorem keys_nodup_dictInsert {α : Type} (l : List (String × α)) (k : String) (v : α)
    (h : (l.map Prod.fst).Nodup) : ((dictInsert l k v).map Prod.fst).Nodup := by
  induction l with
  | nil => simp [dictInsert]
  | cons p rest ih =>
    obtain ⟨k0, v0⟩ := p
    rw [List.map_cons, List.nodup_cons] at h
    by_cases hk : k0 = k
    · have e : dictInsert ((k0, v0) :: rest) k v = (k0, v) :: rest := by
        simp [dictInsert, hk]
      rw [e, List.map_cons, List.nodup_cons]
      exact h
    · have e : dictInsert ((k0, v0) :: rest) k v = (k0, v0) :: dictInsert rest k v := by
        simp [dictInsert, hk]
      rw [e, List.map_cons, List.nodup_cons]
      constructor
      · intro hmem
        rcases mem_keys_dictInsert rest k k0 v hmem with h1 | h1
        · exact h.1 h1
        · exact hk h1
      · exact ih h.2

theorem keys_nodup_dictErase {α : Type} (l : List (String × α)) (k : String)
    (h : (l.map Prod.fst).Nodup) : ((dictErase l k).map Prod.fst).Nodup :=
  ((List.filter_sublist l).map Prod.fst).nodup h

theorem updReq_length (h : List PairingRequest) (n : Nat) (f : PairingRequest → PairingRequest) :
    (updReq h n f).length = h.length := by
  induction h generalizing n with
  | nil => simp [updReq]
  | cons r rest ih =>
    cases n with
    | zero => simp [updReq]
    | succ m => simp [updReq, ih]

theorem updReq_getElem_self (h : List PairingRequest) (n : Nat)
    (f : PairingRequest → PairingRequest) : (updReq h n f)[n]? = (h[n]?).map f := by
  induction h generalizing n with
  | nil => simp [updReq]
  | cons r rest ih =>
    cases n with
    | zero => simp [updReq]
    | succ m => simpa [updReq] using ih m

theorem updReq_getElem_other (h : List PairingRequest) (n j : Nat)
    (f : PairingRequest → PairingRequest) (hne : n ≠ j) : (updReq h n f)[j]? = h[j]? := by
  induction h generalizing n j with
  | nil => simp [updReq]
  | cons r rest ih =>
    cases n with
    | zero =>
      cases j with
      | zero => exact absurd rfl hne
      | succ i => simp [updReq]
    | succ m =>
      cases j with
      | zero => simp [updReq]
      | succ i => simpa [updReq] using ih m i (by omega)

theorem updReq_updReq (h : List PairingRequest) (n : Nat)
    (f g : PairingRequest → PairingRequest) :
    updReq (updReq h n f) n g = updReq h n (fun r => g (f r)) := by
  induction h generalizing n with
  | nil => simp [updReq]
  | cons r rest ih =>
    cases n with
    | zero => simp [updReq]
    | succ m => simp [updReq, ih]

theorem updReq_congr (h : List PairingRequest) (n : Nat)
    (f g : PairingRequest → PairingRequest) (hfg : ∀ r, f r = g r) :
    updReq h n f = updReq h n g := by
  induction h generalizing n with
  | nil => simp [updReq]
  | cons r rest ih =>
    cases n with
    | zero => simp [updReq, hfg]
    | succ m => simp [updReq, ih]

theorem getElem?_append_length (h : List PairingRequest) (r : PairingRequest) :
    (h ++ [r])[h.length]? = some r := by
  induction h with
  | nil => simp
  | cons q rest ih => simp [ih]

/-- What `Cancel` guarantees for the request at a heap index: REJECTED status
and, if a future was created, a set result. -/
def CancelledAt (heap : List PairingRequest) (id : Nat) : Prop :=
  ∀ r, heap[id]? = some r →
    r.status = PairingStatus.rejected ∧ (r.futureCreated = true → r.futureDone = true)

theorem cancelResolve_self (heap : List PairingRequest) (id : Nat) :
    CancelledAt (cancelResolve heap id) id := by
  intro r hr
  rw [cancelResolve, updReq_getElem_self] at hr
  cases hh : heap[id]? with
  | none => rw [hh] at hr; simp at hr
  | some q =>
    rw [hh] at hr
    simp at hr
    subst hr
    refine ⟨rfl, ?_⟩
    intro hc
    simp [resolverFun] at hc ⊢
    simp [hc]

theorem cancelResolve_preserves (heap : List PairingRequest) (id j : Nat)
    (h : CancelledAt heap id) : CancelledAt (cancelResolve heap j) id := by
  by_cases hij : j = id
  · subst hij
    exact cancelResolve_self heap j
  · intro r hr
    rw [cancelResolve, updReq_getElem_other _ _ _ _ hij] at hr
    exact h r hr

theorem cancelFold_preserves (ids : List (String × Nat)) (heap : List PairingRequest) (id : Nat)
    (h : CancelledAt heap id) :
    CancelledAt (ids.foldl (fun acc p => cancelResolve acc p.2) heap) id := by
  induction ids generalizing heap with
  | nil => exact h
  | cons p rest ih => exact ih _ (cancelResolve_preserves _ _ _ h)

theorem cancelFold_mem (ids : List (String × Nat)) (heap : List PairingRequest) (id : Nat)
    (hm : id ∈ ids.map Prod.snd) :
    CancelledAt (ids.foldl (fun acc p => cancelResolve acc p.2) heap) id := by
  induction ids generalizing heap with
  | nil => simp at hm
  | cons p rest ih =>
    rw [List.map_cons, List.mem_cons] at hm
    by_cases he : id = p.2
    · exact cancelFold_preserves rest _ id (he ▸ cancelResolve_self heap p.2)
    · rcases hm with hm | hm
      · exact absurd hm he
      · exact ih (cancelResolve heap p.2) hm

/-- The state of the freshly registered request right after any of the
suspending callbacks reaches its suspension point. -/
theorem afterStart_heap (st : AgentState) (device name addr : String) (pk : Option String) :
    (waitStart (registerRequest st device name addr pk).2 st.heap.length).heap[st.heap.length]? =
      some { device_path := device, device_name := name, device_address := addr,
             passkey := pk, status := PairingStatus.pending,
             futureCreated := true, futureDone := false } := by
  have e1 : (waitStart (registerRequest st device name addr pk).2 st.heap.length).heap =
      updReq
        (st.heap ++
          [(⟨device, name, addr, pk, PairingStatus.pending, false, false⟩ : PairingRequest)])
        st.heap.length
        (fun r => { r with futureCreated := true, futureDone := false }) := rfl
  rw [e1, updReq_getElem_self, getElem?_append_length]
  rfl

theorem afterStart_pending (st : AgentState) (device name addr : String) (pk : Option String) :
    (waitStart (registerRequest st device name addr pk).2 st.heap.length).pending =
      dictInsert st.pending device st.heap.length := rfl

theorem afterStart_events (st : AgentState) (device name addr : String) (pk : Option String) :
    (waitStart (registerRequest st device name addr pk).2 st.heap.length).events =
      st.events ++ [device] := rfl

theorem requestConfirmationStart_eq (st : AgentState) (device name addr pks : String) :
    requestConfirmationStart st device name addr pks =
      (st.heap.length, waitStart (registerRequest st device name addr (some pks)).2 st.heap.length) :=
  rfl

theorem requestAuthorizationStart_eq (st : AgentState) (device name addr : String) :
    requestAuthorizationStart st device name addr =
      (st.heap.length, waitStart (registerRequest st device name addr none).2 st.heap.length) :=
  rfl

theorem authorizeServiceStart_eq_of_not_listed (st : AgentState) (device name addr uuid : String)
    (h : a2dp_uuids.contains (strLower uuid) = false) :
    authorizeServiceStart st device name addr uuid =
      (AuthorizeOutcome.suspended st.heap.length,
       waitStart (registerRequest st device name addr none).2 st.heap.length) := by
  simp only [authorizeServiceStart]
  rw [if_neg (by simpa using h : ¬ a2dp_uuids.contains (strLower uuid) = true)]
  rfl

/-- The timeout branch applied right after a suspension point: `False` comes
back to the callback, the request's status is TIMEOUT, and the registry no
longer holds the device path. -/
theorem startThenTimeout (st : AgentState) (device name addr : String) (pk : Option String) :
    (waitTimeout (waitStart (registerRequest st device name addr pk).2 st.heap.length)
        st.heap.length).1 = false ∧
    ((waitTimeout (waitStart (registerRequest st device name addr pk).2 st.heap.length)
        st.heap.length).2.heap[st.heap.length]?).map PairingRequest.status =
      some PairingStatus.timeout ∧
    dictLookup (waitTimeout (waitStart (registerRequest st device name addr pk).2 st.heap.length)
        st.heap.length).2.pending device = none := by
  have hh := afterStart_heap st device name addr pk
  refine ⟨?_, ?_, ?_⟩
  · simp [waitTimeout, hh]
  · simp [waitTimeout, hh, updReq_getElem_self]
  · rw [waitTimeout, hh]
    simp [afterStart_pending, dictLookup_dictErase_self]

/-! ### Claim theorems -/

/-- C1: for each kind of suspended pairing request (numeric confirmation,
authorization, non-allow-listed service authorization), when no decision
arrives and the timeout fires, the request's status goes from PENDING to
TIMEOUT, the suspended callback observes non-acceptance and raises
`org.bluez.Error.Rejected` back to the stack, and immediately after
resolution the registry holds no entry for the device path. -/
theorem c1_timeout_rejects_and_clears (st : AgentState) (device name addr pks uuid : String)
    (hsvc : a2dp_uuids.contains (strLower uuid) = false) :
    (((requestConfirmationStart st device name addr pks).2.heap[
        (requestConfirmationStart st device name addr pks).1]?).map PairingRequest.status =
        some PairingStatus.pending ∧
     (waitTimeout (requestConfirmationStart st device name addr pks).2
        (requestConfirmationStart st device name addr pks).1).1 = false ∧
     requestConfirmationFinish (waitTimeout (requestConfirmationStart st device name addr pks).2
        (requestConfirmationStart st device name addr pks).1).1 =
       Except.error { name := "org.bluez.Error.Rejected", msg := "Pairing rejected by user" } ∧
     ((waitTimeout (requestConfirmationStart st device name addr pks).2
        (requestConfirmationStart st device name addr pks).1).2.heap[
        (requestConfirmationStart st device name addr pks).1]?).map PairingRequest.status =
       some PairingStatus.timeout ∧
     dictLookup (waitTimeout (requestConfirmationStart st device name addr pks).2
        (requestConfirmationStart st device name addr pks).1).2.pending device = none) ∧
    ((waitTimeout (requestAuthorizationStart st device name addr).2
        (requestAuthorizationStart st device name addr).1).1 = false ∧
     requestAuthorizationFinish (waitTimeout (requestAuthorizationStart st device name addr).2
        (requestAuthorizationStart st device name addr).1).1 =
       Except.error { name := "org.bluez.Error.Rejected", msg := "Authorization rejected by user" } ∧
     ((waitTimeout (requestAuthorizationStart st device name addr).2
        (requestAuthorizationStart st device name addr).1).2.heap[
        (requestAuthorizationStart st device name addr).1]?).map PairingRequest.status =
       some PairingStatus.timeout ∧
     dictLookup (waitTimeout (requestAuthorizationStart st device name addr).2
        (requestAuthorizationStart st device name addr).1).2.pending device = none) ∧
    ((authorizeServiceStart st device name addr uuid).1 =
        AuthorizeOutcome.suspended st.heap.length ∧
     (waitTimeout (authorizeServiceStart st device name addr uuid).2 st.heap.length).1 = false ∧
     authorizeServiceFinish
        (waitTimeout (authorizeServiceStart st device name addr uuid).2 st.heap.length).1 =
       Except.error { name := "org.bluez.Error.Rejected", msg := "Service authorization rejected" } ∧
     ((waitTimeout (authorizeServiceStart st device name addr uuid).2
        st.heap.length).2.heap[st.heap.length]?).map PairingRequest.status =
       some PairingStatus.timeout ∧
     dictLookup (waitTimeout (authorizeServiceStart st device name addr uuid).2
        st.heap.length).2.pending device = none) := by
  refine ⟨?_, ?_, ?_⟩
  · rw [requestConfirmationStart_eq]
    dsimp only
    obtain ⟨h1, h2, h3⟩ := startThenTimeout st device name addr (some pks)
    exact ⟨by rw [afterStart_heap]; rfl, h1, by rw [h1]; rfl, h2, h3⟩
  · rw [requestAuthorizationStart_eq]
    dsimp only
    obtain ⟨h1, h2, h3⟩ := startThenTimeout st device name addr none
    exact ⟨h1, by rw [h1]; rfl, h2, h3⟩
  · rw [authorizeServiceStart_eq_of_not_listed st device name addr uuid hsvc]
    dsimp only
    obtain ⟨h1, h2, h3⟩ := startThenTimeout st device name addr none
    exact ⟨rfl, h1, by rw [h1]; rfl, h2, h3⟩

/-- Witness for C1 at a concrete scenario: authorization for `/d2` times out
with the serial-port UUID not allow-listed; afterwards the registry has no
entry for `/d2`. -/
theorem c1_timeout_rejects_and_clears_witness :
    a2dp_uuids.contains (strLower "00001101-0000-1000-8000-00805f9b34fb") = false ∧
    dictLookup (waitTimeout (requestConfirmationStart agentInit "/d2" "Phone" "AA:BB" "123456").2
        (requestConfirmationStart agentInit "/d2" "Phone" "AA:BB" "123456").1).2.pending "/d2" =
      none :=
  ⟨by decide,
   (c1_timeout_rejects_and_clears agentInit "/d2" "Phone" "AA:BB" "123456"
      "00001101-0000-1000-8000-00805f9b34fb" (by decide)).1.2.2.2.2⟩

/-- C3: for a numeric-confirmation callback, `accept_pairing` for the same
device path returns `true`, the request's status becomes ACCEPTED, the
suspended callback resumes observing acceptance and returns to the stack
without raising, and afterwards the registry no longer contains the path.
The sink was notified when the request was registered. -/
theorem c3_confirmation_accept_flow (st : AgentState) (device name addr pks : String) :
    (requestConfirmationStart st device name addr pks).2.events = st.events ++ [device] ∧
    (accept_pairing (requestConfirmationStart st device name addr pks).2 device).1 = true ∧
    ((accept_pairing (requestConfirmationStart st device name addr pks).2 device).2.heap[
        (requestConfirmationStart st device name addr pks).1]?).map PairingRequest.status =
      some PairingStatus.accepted ∧
    (waitResume (accept_pairing (requestConfirmationStart st device name addr pks).2 device).2
        (requestConfirmationStart st device name addr pks).1).1 = true ∧
    requestConfirmationFinish
        (waitResume (accept_pairing (requestConfirmationStart st device name addr pks).2 device).2
          (requestConfirmationStart st device name addr pks).1).1 = Except.ok () ∧
    dictLookup
        (waitResume (accept_pairing (requestConfirmationStart st device name addr pks).2 device).2
          (requestConfirmationStart st device name addr pks).1).2.pending device = none := by
  rw [requestConfirmationStart_eq]
  dsimp only
  have hlk : dictLookup
      (waitStart (registerRequest st device name addr (some pks)).2 st.heap.length).pending
      device = some st.heap.length := by
    rw [afterStart_pending]
    exact dictLookup_dictInsert_self _ _ _
  have hacc : accept_pairing
      (waitStart (registerRequest st device name addr (some pks)).2 st.heap.length) device =
      (true,
       { waitStart (registerRequest st device name addr (some pks)).2 st.heap.length with
         heap := updReq
           (waitStart (registerRequest st device name addr (some pks)).2 st.heap.length).heap
           st.heap.length (resolverFun PairingStatus.accepted) }) := by
    simp only [accept_pairing, resolveWith, hlk]
  have hh2 : (accept_pairing
      (waitStart (registerRequest st device name addr (some pks)).2 st.heap.length)
      device).2.heap[st.heap.length]? =
      some { device_path := device, device_name := name, device_address := addr,
             passkey := some pks, status := PairingStatus.accepted,
             futureCreated := true, futureDone := true } := by
    rw [hacc]
    dsimp only
    rw [updReq_getElem_self, afterStart_heap]
    rfl
  have hres : (waitResume (accept_pairing
      (waitStart (registerRequest st device name addr (some pks)).2 st.heap.length)
      device).2 st.heap.length).1 = true := by
    rw [waitResume, hh2]
    rfl
  have hpend : dictLookup (waitResume (accept_pairing
      (waitStart (registerRequest st device name addr (some pks)).2 st.heap.length)
      device).2 st.heap.length).2.pending device = none := by
    rw [waitResume, hh2]
    dsimp only
    rw [hacc]
    dsimp only
    rw [afterStart_pending]
    exact dictLookup_dictErase_self _ _
  refine ⟨afterStart_events st device name addr (some pks), by rw [hacc], ?_, hres,
    by rw [hres]; rfl, hpend⟩
  rw [hh2]
  rfl

/-- C4 (code bug): `_connect_device` does set the overlay to CONNECTING before
the stack call, CONNECTED on success, and ERROR with a classified message on
failure — but the ERROR state never clears after the display window: the guard
of `_clear_error_state` compares the `DeviceState.ERROR` enum member against
the string literal `"error"` (ui.py line 474), which is always false for a
plain enum, so `clear_error_state` leaves the state untouched. -/
theorem c4_connect_lifecycle_error_persists :
    dictLookup (connectStart uiInit "/d3").deviceStates "/d3" = some DeviceState.connecting ∧
    dictLookup (connect_device_ui uiInit "/d3" StackResult.ok).deviceStates "/d3" =
      some DeviceState.connected ∧
    (connect_device_ui uiInit "/d3" (StackResult.failure "Host is down")).notices =
      ["Connection failed: Device is not in range or powered off"] ∧
    dictLookup (connect_device_ui uiInit "/d3" (StackResult.failure "Host is down")).deviceStates
        "/d3" = some DeviceState.error ∧
    clear_error_state (connect_device_ui uiInit "/d3" (StackResult.failure "Host is down")) "/d3" =
      connect_device_ui uiInit "/d3" (StackResult.failure "Host is down") := by
  decide

theorem resolveWith_stale (status : PairingStatus) (st : AgentState) (path : String)
    (h : dictLookup st.pending path = none) : resolveWith status st path = (false, st) := by
  simp only [resolveWith, h]

theorem getElem?_append_lt (h1 h2 : List PairingRequest) (n : Nat) (hn : n < h1.length) :
    (h1 ++ h2)[n]? = h1[n]? := by
  induction h1 generalizing n with
  | nil => simp at hn
  | cons q rest ih =>
    cases n with
    | zero => simp
    | succ m => simpa using ih m (by simpa using hn)

theorem resolverFun_idem (status : PairingStatus) :
    ∀ r, resolverFun status (resolverFun status r) = resolverFun status r := by
  intro r
  cases r with
  | mk dp dn da pk stt fc fd => cases fc <;> cases fd <;> simp [resolverFun]

theorem resolveWith_idem (status : PairingStatus) (st : AgentState) (path : String) (id : Nat)
    (h : dictLookup st.pending path = some id) :
    resolveWith status (resolveWith status st path).2 path = (true, (resolveWith status st path).2) := by
  have e1 : resolveWith status st path =
      (true, { st with heap := updReq st.heap id (resolverFun status) }) := by
    simp only [resolveWith, h]
  rw [e1]
  simp only [resolveWith, h]
  rw [updReq_updReq, updReq_congr st.heap id _ _ (resolverFun_idem status)]

/-- C2 counterexample: from a fresh numeric-confirmation request for `/d1`,
`accept_pairing` moves the status to the terminal ACCEPTED; a subsequent
`reject_pairing` before the waiter resumes returns `true` again and moves the
status out of the terminal ACCEPTED to REJECTED — the second resolution has
an observable effect. -/
theorem c2_counterexample :
    (accept_pairing (requestConfirmationStart agentInit "/d1" "Phone" "AA" "123456").2 "/d1").1
      = true ∧
    ((accept_pairing (requestConfirmationStart agentInit "/d1" "Phone" "AA" "123456").2
        "/d1").2.heap[0]?).map PairingRequest.status = some PairingStatus.accepted ∧
    (reject_pairing (accept_pairing
        (requestConfirmationStart agentInit "/d1" "Phone" "AA" "123456").2 "/d1").2 "/d1").1
      = true ∧
    ((reject_pairing (accept_pairing
        (requestConfirmationStart agentInit "/d1" "Phone" "AA" "123456").2 "/d1").2
        "/d1").2.heap[0]?).map PairingRequest.status = some PairingStatus.rejected := by
  decide

/-- C2 (amended): resolving never produces an error.  A decision for a path
with no registry entry — in particular any decision arriving after a timeout,
whose `finally` block removed the entry — is a no-op returning `false`, and
repeating the same decision for a registered path returns `true` again and
leaves the state unchanged.  A conflicting second decision for a
still-registered path, however, overwrites the terminal status (see the
counterexample), so terminal statuses are only absorbing once the entry has
left the registry. -/
theorem c2_resolution_amended (st : AgentState) (path name addr pks : String) (id : Nat) :
    (dictLookup st.pending path = none →
      accept_pairing st path = (false, st) ∧ reject_pairing st path = (false, st)) ∧
    (dictLookup st.pending path = some id →
      accept_pairing (accept_pairing st path).2 path = (true, (accept_pairing st path).2) ∧
      reject_pairing (reject_pairing st path).2 path = (true, (reject_pairing st path).2)) ∧
    accept_pairing (waitTimeout (requestConfirmationStart st path name addr pks).2
        (requestConfirmationStart st path name addr pks).1).2 path =
      (false, (waitTimeout (requestConfirmationStart st path name addr pks).2
        (requestConfirmationStart st path name addr pks).1).2) := by
  refine ⟨?_, ?_, ?_⟩
  · intro h
    exact ⟨resolveWith_stale _ _ _ h, resolveWith_stale _ _ _ h⟩
  · intro h
    exact ⟨resolveWith_idem _ _ _ _ h, resolveWith_idem _ _ _ _ h⟩
  · rw [requestConfirmationStart_eq]
    dsimp only
    exact resolveWith_stale _ _ _ (startThenTimeout st path name addr (some pks)).2.2

/-- Witness for C2 (amended) at a concrete scenario: repeating `accept_pairing`
for `/d1` is a no-op returning `true`. -/
theorem c2_resolution_amended_witness :
    accept_pairing (accept_pairing
        (requestConfirmationStart agentInit "/d1" "Phone" "AA" "123456").2 "/d1").2 "/d1" =
      (true, (accept_pairing
        (requestConfirmationStart agentInit "/d1" "Phone" "AA" "123456").2 "/d1").2) :=
  ((c2_resolution_amended (requestConfirmationStart agentInit "/d1" "Phone" "AA" "123456").2
      "/d1" "Phone" "AA" "123456" 0).2.1 (by decide)).1

/-- C5 counterexample: a second numeric-confirmation callback for `/d1` while
a request is already PENDING does not reuse the existing entry: it allocates a
second request object (index 1, carrying the new passkey), repoints the
registry at it, and starts a second suspension — both request objects now have
live futures. -/
theorem c5_counterexample :
    (requestConfirmationStart agentInit "/d1" "Phone" "AA" "111111").1 = 0 ∧
    (requestConfirmationStart (requestConfirmationStart agentInit "/d1" "Phone" "AA" "111111").2
        "/d1" "Phone" "AA" "222222").1 = 1 ∧
    dictLookup (requestConfirmationStart
        (requestConfirmationStart agentInit "/d1" "Phone" "AA" "111111").2
        "/d1" "Phone" "AA" "222222").2.pending "/d1" = some 1 ∧
    ((requestConfirmationStart (requestConfirmationStart agentInit "/d1" "Phone" "AA" "111111").2
        "/d1" "Phone" "AA" "222222").2.heap[0]?).map PairingRequest.passkey =
      some (some "111111") ∧
    ((requestConfirmationStart (requestConfirmationStart agentInit "/d1" "Phone" "AA" "111111").2
        "/d1" "Phone" "AA" "222222").2.heap[1]?).map PairingRequest.passkey =
      some (some "222222") ∧
    ((requestConfirmationStart (requestConfirmationStart agentInit "/d1" "Phone" "AA" "111111").2
        "/d1" "Phone" "AA" "222222").2.heap[0]?).map PairingRequest.futureCreated = some true ∧
    ((requestConfirmationStart (requestConfirmationStart agentInit "/d1" "Phone" "AA" "111111").2
        "/d1" "Phone" "AA" "222222").2.heap[1]?).map PairingRequest.futureCreated = some true := by
  decide

/-- C5 (amended): a confirmation-requiring callback for a device path that
already has a registered request does not duplicate the registry entry, but it
does not reuse the existing request either: it allocates a fresh PENDING
request with its own suspension, repoints the registry entry at it, and leaves
the old request object untouched (orphaned). -/
theorem c5_replace_not_reuse (st : AgentState) (device name addr pks : String) (oldId : Nat)
    (_hold : dictLookup st.pending device = some oldId) (hlt : oldId < st.heap.length) :
    (requestConfirmationStart st device name addr pks).1 = st.heap.length ∧
    (requestConfirmationStart st device name addr pks).1 ≠ oldId ∧
    dictLookup (requestConfirmationStart st device name addr pks).2.pending device =
      some st.heap.length ∧
    (requestConfirmationStart st device name addr pks).2.heap[oldId]? = st.heap[oldId]? ∧
    (requestConfirmationStart st device name addr pks).2.heap[st.heap.length]? =
      some { device_path := device, device_name := name, device_address := addr,
             passkey := some pks, status := PairingStatus.pending,
             futureCreated := true, futureDone := false } := by
  rw [requestConfirmationStart_eq]
  dsimp only
  refine ⟨rfl, by omega, ?_, ?_, afterStart_heap st device name addr (some pks)⟩
  · rw [afterStart_pending]
    exact dictLookup_dictInsert_self _ _ _
  · have e1 : (waitStart (registerRequest st device name addr (some pks)).2 st.heap.length).heap =
        updReq
          (st.heap ++
            [(⟨device, name, addr, some pks, PairingStatus.pending, false, false⟩ : PairingRequest)])
          st.heap.length
          (fun r => { r with futureCreated := true, futureDone := false }) := rfl
    rw [e1, updReq_getElem_other _ _ _ _ (by omega), getElem?_append_lt _ _ _ hlt]

/-- Witness for C5 (amended) at a concrete scenario: the second callback for
`/d1` points the registry at the fresh index 1, not the old index 0. -/
theorem c5_replace_not_reuse_witness :
    dictLookup (requestConfirmationStart
        (requestConfirmationStart agentInit "/d1" "Phone" "AA" "111111").2
        "/d1" "Phone" "AA" "222222").2.pending "/d1" = some 1 :=
  (c5_replace_not_reuse (requestConfirmationStart agentInit "/d1" "Phone" "AA" "111111").2
      "/d1" "Phone" "AA" "222222" 0 (by decide) (by decide)).2.2.1

/-- C6: `Cancel` transitions every registered request to REJECTED, releases
each request's suspension handle (the future's result is set whenever a future
exists), and empties the registry, so a subsequent `accept_pairing` for any
path returns `false` and changes nothing. -/
theorem c6_cancel_rejects_all (st : AgentState) :
    (cancelAgent st).pending = [] ∧
    (∀ path, accept_pairing (cancelAgent st) path = (false, cancelAgent st)) ∧
    (∀ path id, (path, id) ∈ st.pending →
      ∀ r, (cancelAgent st).heap[id]? = some r →
        r.status = PairingStatus.rejected ∧ (r.futureCreated = true → r.futureDone = true)) := by
  refine ⟨rfl, ?_, ?_⟩
  · intro path
    exact resolveWith_stale _ _ _ rfl
  · intro path id hm r hr
    exact cancelFold_mem st.pending st.heap id (List.mem_map.mpr ⟨(path, id), hm, rfl⟩) r hr

/-- Witness for C6 at a concrete scenario: cancelling with `/d1` pending
empties the registry, rejects the request, and makes `accept_pairing` report
"not found". -/
theorem c6_cancel_rejects_all_witness :
    (cancelAgent (requestConfirmationStart agentInit "/d1" "Phone" "AA" "123456").2).pending
      = [] ∧
    accept_pairing (cancelAgent
        (requestConfirmationStart agentInit "/d1" "Phone" "AA" "123456").2) "/d1" =
      (false, cancelAgent (requestConfirmationStart agentInit "/d1" "Phone" "AA" "123456").2) ∧
    ((cancelAgent (requestConfirmationStart agentInit "/d1" "Phone" "AA" "123456").2).heap[0]?).map
        PairingRequest.status = some PairingStatus.rejected := by
  refine ⟨(c6_cancel_rejects_all
      (requestConfirmationStart agentInit "/d1" "Phone" "AA" "123456").2).1,
    (c6_cancel_rejects_all
      (requestConfirmationStart agentInit "/d1" "Phone" "AA" "123456").2).2.1 "/d1", ?_⟩
  cases hh : (cancelAgent (requestConfirmationStart agentInit "/d1" "Phone" "AA" "123456").2).heap[0]? with
  | none => exact absurd hh (by decide)
  | some r =>
    have h := ((c6_cancel_rejects_all
        (requestConfirmationStart agentInit "/d1" "Phone" "AA" "123456").2).2.2
        "/d1" 0 (by decide) r hh).1
    simp [h]

/-- C7: a service-authorization callback whose identifier lowercases into the
A2DP/AVRCP allow-list returns success at once with the agent state unchanged —
no request, no notification, no suspension; any other identifier registers a
passkey-less PENDING request, notifies the sink, suspends, and non-acceptance
raises `org.bluez.Error.Rejected`. -/
theorem c7_service_allowlist (st : AgentState) (device name addr uuid uuid2 : String)
    (hin : a2dp_uuids.contains (strLower uuid) = true)
    (hout : a2dp_uuids.contains (strLower uuid2) = false) :
    authorizeServiceStart st device name addr uuid = (AuthorizeOutcome.autoApproved, st) ∧
    (authorizeServiceStart st device name addr uuid2).1 =
      AuthorizeOutcome.suspended st.heap.length ∧
    dictLookup (authorizeServiceStart st device name addr uuid2).2.pending device =
      some st.heap.length ∧
    (authorizeServiceStart st device name addr uuid2).2.events = st.events ++ [device] ∧
    (authorizeServiceStart st device name addr uuid2).2.heap[st.heap.length]? =
      some { device_path := device, device_name := name, device_address := addr,
             passkey := none, status := PairingStatus.pending,
             futureCreated := true, futureDone := false } ∧
    authorizeServiceFinish false =
      Except.error { name := "org.bluez.Error.Rejected",
                     msg := "Service authorization rejected" } := by
  have e2 := authorizeServiceStart_eq_of_not_listed st device name addr uuid2 hout
  refine ⟨?_, ?_, ?_, ?_, ?_, rfl⟩
  · simp only [authorizeServiceStart]
    rw [if_pos hin]
  · rw [e2]
  · rw [e2]
    dsimp only
    rw [afterStart_pending]
    exact dictLookup_dictInsert_self _ _ _
  · rw [e2]
    dsimp only
    exact afterStart_events st device name addr none
  · rw [e2]
    dsimp only
    exact afterStart_heap st device name addr none

/-- Witness for C7 at concrete identifiers: the upper-cased A2DP-sink UUID is
auto-approved with no state change. -/
theorem c7_service_allowlist_witness :
    a2dp_uuids.contains (strLower "0000110B-0000-1000-8000-00805F9B34FB") = true ∧
    authorizeServiceStart agentInit "/d5" "Speaker" "AA"
        "0000110B-0000-1000-8000-00805F9B34FB" = (AuthorizeOutcome.autoApproved, agentInit) :=
  ⟨by decide,
   (c7_service_allowlist agentInit "/d5" "Speaker" "AA"
      "0000110B-0000-1000-8000-00805F9B34FB" "00001101-0000-1000-8000-00805f9b34fb"
      (by decide) (by decide)).1⟩

/-- C8 counterexample: an input containing `"AuthenticationRejected"` is not
always mapped to the authentication-rejected text — the `"Host is down"`
branch is checked first and wins on this input. -/
theorem c8_counterexample :
    strContains "Host is down: AuthenticationRejected" "AuthenticationRejected" = true ∧
    parse_dbus_error "Host is down: AuthenticationRejected" =
      "Device is not in range or powered off" ∧
    parse_dbus_error "Host is down: AuthenticationRejected" ≠
      "Authentication was rejected by the device" := by
  decide

/-- C8 (amended): the classifier is a pure string mapping checked in source
order.  Any input containing `"Host is down"` maps to the out-of-range text;
an input containing `"AuthenticationRejected"` and none of the seven
earlier-checked patterns maps to the authentication-rejected text;
`"foo: bar: baz"` falls through to the trailing colon-delimited segment
`"baz"`; and an unrecognised message without a colon passes through
verbatim. -/
theorem c8_error_classifier (s t u : String)
    (hs : strContains s "Host is down" = true)
    (h1 : strContains t "Host is down" = false)
    (h2 : strContains t "Connection refused" = false)
    (h3 : strContains t "le-connection-abort" = false)
    (h4 : strContains t "InProgress" = false)
    (h5 : strContains t "NotReady" = false)
    (h6 : strContains t "AuthenticationFailed" = false)
    (h7 : strContains t "AuthenticationCanceled" = false)
    (h8 : strContains t "AuthenticationRejected" = true)
    (hu1 : strContains u "Host is down" = false)
    (hu2 : strContains u "Connection refused" = false)
    (hu3 : strContains u "le-connection-abort" = false)
    (hu4 : strContains u "InProgress" = false)
    (hu5 : strContains u "NotReady" = false)
    (hu6 : strContains u "AuthenticationFailed" = false)
    (hu7 : strContains u "AuthenticationCanceled" = false)
    (hu8 : strContains u "AuthenticationRejected" = false)
    (hu9 : strContains u "AuthenticationTimeout" = false)
    (hu10 : strContains u "ConnectionAttemptFailed" = false)
    (hu11 : strContains u ":" = false) :
    parse_dbus_error s = "Device is not in range or powered off" ∧
    parse_dbus_error t = "Authentication was rejected by the device" ∧
    parse_dbus_error "foo: bar: baz" = "baz" ∧
    parse_dbus_error u = u := by
  refine ⟨?_, ?_, by decide, ?_⟩
  · simp [parse_dbus_error, hs]
  · simp [parse_dbus_error, h1, h2, h3, h4, h5, h6, h7, h8]
  · simp [parse_dbus_error, hu1, hu2, hu3, hu4, hu5, hu6, hu7, hu8, hu9, hu10, hu11]

/-- Witness for C8 (amended) at concrete messages. -/
theorem c8_error_classifier_witness :
    parse_dbus_error "Host is down" = "Device is not in range or powered off" ∧
    parse_dbus_error "AuthenticationRejected" = "Authentication was rejected by the device" ∧
    parse_dbus_error "unknown" = "unknown" :=
  have h := c8_error_classifier "Host is down" "AuthenticationRejected" "unknown"
    (by decide) (by decide) (by decide) (by decide) (by decide) (by decide) (by decide)
    (by decide) (by decide) (by decide) (by decide) (by decide) (by decide) (by decide)
    (by decide) (by decide) (by decide) (by decide) (by decide) (by decide)
  ⟨h.1, h.2.1, h.2.2.2⟩

/-- The registry holds no two entries with the same device path (its key list
has no duplicates). -/
def pendingKeysNodup (st : AgentState) : Prop := (st.pending.map Prod.fst).Nodup

/-- For every device path, the registry holds at most one entry for it. -/
def atMostOnePerPath (st : AgentState) : Prop :=
  ∀ path : String, (st.pending.filter (fun e => e.1 == path)).length ≤ 1

/-- One observable transition of the agent state: a stack callback registering
a request (display-only or suspending), a sink decision, a cancel broadcast,
or a waiter resuming/timing out. -/
inductive AgentStep : AgentState → AgentState → Prop
  | display (st : AgentState) (device name addr : String) (pk : Option String) :
      AgentStep st (registerRequest st device name addr pk).2
  | confirm (st : AgentState) (device name addr pks : String) :
      AgentStep st (requestConfirmationStart st device name addr pks).2
  | authorize (st : AgentState) (device name addr : String) :
      AgentStep st (requestAuthorizationStart st device name addr).2
  | service (st : AgentState) (device name addr uuid : String) :
      AgentStep st (authorizeServiceStart st device name addr uuid).2
  | accept (st : AgentState) (device_path : String) :
      AgentStep st (accept_pairing st device_path).2
  | reject (st : AgentState) (device_path : String) :
      AgentStep st (reject_pairing st device_path).2
  | cancel (st : AgentState) : AgentStep st (cancelAgent st)
  | resume (st : AgentState) (id : Nat) : AgentStep st (waitResume st id).2
  | timeoutFire (st : AgentState) (id : Nat) : AgentStep st (waitTimeout st id).2

theorem pendingKeysNodup_register (st : AgentState) (device name addr : String)
    (pk : Option String) (h : pendingKeysNodup st) :
    pendingKeysNodup (registerRequest st device name addr pk).2 :=
  keys_nodup_dictInsert st.pending device st.heap.length h

theorem pendingKeysNodup_resolveWith (status : PairingStatus) (st : AgentState) (p : String)
    (h : pendingKeysNodup st) : pendingKeysNodup (resolveWith status st p).2 := by
  cases hl : dictLookup st.pending p with
  | none => simp only [resolveWith, hl]; exact h
  | some id => simp only [resolveWith, hl]; exact h

theorem pendingKeysNodup_waitResume (st : AgentState) (id : Nat) (h : pendingKeysNodup st) :
    pendingKeysNodup (waitResume st id).2 := by
  cases hh : st.heap[id]? with
  | none => simp only [waitResume, hh]; exact h
  | some r => simp only [waitResume, hh]; exact keys_nodup_dictErase _ _ h

theorem pendingKeysNodup_waitTimeout (st : AgentState) (id : Nat) (h : pendingKeysNodup st) :
    pendingKeysNodup (waitTimeout st id).2 := by
  cases hh : st.heap[id]? with
  | none => simp only [waitTimeout, hh]; exact h
  | some r => simp only [waitTimeout, hh]; exact keys_nodup_dictErase _ _ h

theorem pendingKeysNodup_service (st : AgentState) (device name addr uuid : String)
    (h : pendingKeysNodup st) : pendingKeysNodup (authorizeServiceStart st device name addr uuid).2 := by
  by_cases hc : a2dp_uuids.contains (strLower uuid) = true
  · simp only [authorizeServiceStart, if_pos hc]
    exact h
  · rw [authorizeServiceStart_eq_of_not_listed st device name addr uuid (by simpa using hc)]
    exact keys_nodup_dictInsert st.pending device st.heap.length h

theorem nodup_imp_atMostOne (st : AgentState) (h : pendingKeysNodup st) :
    atMostOnePerPath st := by
  intro path
  have h1 : (st.pending.filter (fun e => e.1 == path)).length =
      st.pending.countP (fun e => e.1 == path) := (List.countP_eq_length_filter _ _).symm
  have h2 : st.pending.countP (fun e => e.1 == path) =
      (st.pending.map Prod.fst).count path := by
    simp only [List.count, List.countP_map]
    rfl
  rw [h1, h2]
  exact List.nodup_iff_count_le_one.mp h path

/-- C9: every agent transition preserves the registry invariant that at most
one request is registered per device path — a callback for a path already in
the registry replaces its entry rather than duplicating it. -/
theorem c9_registry_unique_per_path (st st' : AgentState) (hstep : AgentStep st st')
    (hinv : pendingKeysNodup st) : pendingKeysNodup st' ∧ atMostOnePerPath st' := by
  have h' : pendingKeysNodup st' := by
    cases hstep with
    | display device name addr pk => exact pendingKeysNodup_register st device name addr pk hinv
    | confirm device name addr pks =>
      exact pendingKeysNodup_register st device name addr (some pks) hinv
    | authorize device name addr => exact pendingKeysNodup_register st device name addr none hinv
    | service device name addr uuid => exact pendingKeysNodup_service st device name addr uuid hinv
    | accept device_path => exact pendingKeysNodup_resolveWith _ st device_path hinv
    | reject device_path => exact pendingKeysNodup_resolveWith _ st device_path hinv
    | cancel => exact List.nodup_nil
    | resume id => exact pendingKeysNodup_waitResume st id hinv
    | timeoutFire id => exact pendingKeysNodup_waitTimeout st id hinv
  exact ⟨h', nodup_imp_atMostOne st' h'⟩

/-- Witness for C9 at a concrete step: registering `/d1` from the empty
registry keeps keys unique. -/
theorem c9_registry_unique_per_path_witness :
    pendingKeysNodup (registerRequest agentInit "/d1" "Phone" "AA" none).2 ∧
    atMostOnePerPath (registerRequest agentInit "/d1" "Phone" "AA" none).2 :=
  c9_registry_unique_per_path agentInit (registerRequest agentInit "/d1" "Phone" "AA" none).2
    (AgentStep.display agentInit "/d1" "Phone" "AA" none) List.nodup_nil

/-- C10: with no D-Bus connection (`_bus` unset), every `BluetoothManager`
operation degrades without raising and without contacting the stack:
`get_devices` returns the empty list, `get_adapter_info` the empty map, and
all mutating operations return as no-ops with no bus traffic. -/
theorem c10_disconnected_degrades (m : BluetoothManager) (stack : StackOracle)
    (hbus : m.busConnected = false) :
    get_devices m stack = ([], []) ∧
    get_adapter_info m stack = ([], []) ∧
    (∀ d t, set_discoverable m d t = []) ∧
    (∀ p t, set_pairable m p t = []) ∧
    (∀ a, set_adapter_alias m a = []) ∧
    (∀ p, trust_device m p = []) ∧
    (∀ p, connect_device m p = []) ∧
    (∀ p, disconnect_device m p = []) ∧
    (∀ p, remove_device m p = []) := by
  refine ⟨by simp [get_devices, hbus], by simp [get_adapter_info, hbus],
    fun d t => by simp [set_discoverable, hbus], fun p t => by simp [set_pairable, hbus],
    fun a => by simp [set_adapter_alias, hbus], fun p => by simp [trust_device, hbus],
    fun p => by simp [connect_device, hbus], fun p => by simp [disconnect_device, hbus],
    fun p => by simp [remove_device, hbus]⟩

/-- Witness for C10 at a concrete disconnected manager. -/
theorem c10_disconnected_degrades_witness :
    get_devices { busConnected := false, adapterPath := none }
        { managedObjects := [],
          adapterProps := { name := none, aliasName := none, address := none,
                            powered := none, discoverable := none, pairable := none } } =
      ([], []) ∧
    connect_device { busConnected := false, adapterPath := none } "/dev0" = [] :=
  ⟨(c10_disconnected_degrades { busConnected := false, adapterPath := none }
      { managedObjects := [],
        adapterProps := { name := none, aliasName := none, address := none,
                          powered := none, discoverable := none, pairable := none } } rfl).1,
   (c10_disconnected_degrades { busConnected := false, adapterPath := none }
      { managedObjects := [],
        adapterProps := { name := none, aliasName := none, address := none,
                          powered := none, discoverable := none, pairable := none } }
      rfl).2.2.2.2.2.2.1 "/dev0"⟩

end Piston
